import Mathlib

/-!
Shallow embedding of `src/backend/discovery_workflow.py`, the conversation
orchestration engine of Discovery Coach: the `DiscoveryState` schema, the
node functions, the routing functions, `prepare_initial_state`, and the
execution of the graph wired by `create_discovery_workflow`.

Modelling conventions:
* Python strings are Lean `String`s; the helpers `strLower`, `strContains`
  and `lastChars` mirror `str.lower()`, the `in` operator and `s[-100:]`
  slicing, working over the character list (`String.data`).
* Python floats carrying confidence scores and temperatures are modelled as
  integers in hundredths (0.9 ↦ 90).  Every constant the source stores or
  compares (0.9, 0.7, 0.5, 1.0, 0.1) is an exact hundredth, so every
  comparison in the source is preserved.
* The fallible external collaborators are oracles passed as arguments:
  the classifier's LLM call (`ClassifierOracle`), the retriever
  (`RetrieverOracle`) and the generator (`GenOracle`); `none` /
  `Except.error` is the Python exception path.
* LangGraph's execution of the compiled graph is modelled by the explicit
  driver `runTurnTr`, which follows exactly the edges added in
  `create_discovery_workflow` and also returns the list of executed node
  names (the trace).
* `retrieved_docs` keeps only the passage contents (`page_content`); the
  metadata dict is opaque external data.
-/

/-- A chat message: `HumanMessage` or `AIMessage` with its content. -/
inductive Msg where
  | human (content : String)
  | ai (content : String)
deriving DecidableEq

/-- An entry of the caller-supplied `chat_history` list handed to
`prepare_initial_state`: either a dict carrying a `"type"` and a
`"content"` value, or an already-constructed message object. -/
inductive HistEntry where
  | dict (type content : String)
  | msg (m : Msg)
deriving DecidableEq

/-- The `DiscoveryState` TypedDict: state passed between workflow nodes. -/
structure DiscoveryState where
  messages : List Msg
  user_message : String
  context_type : String
  active_epic : Option String
  active_feature : Option String
  active_strategic_initiative : Option String
  intent : String
  confidence_score : Int
  retrieval_query : String
  retrieved_docs : List String
  context_text : String
  generated_response : String
  needs_clarification : Bool
  needs_retry : Bool
  validation_issues : List String
  retry_count : Nat
  model : String
  provider : String
  temperature : Int
  is_summary : Bool
  is_draft : Bool
  error_message : Option String
deriving DecidableEq

/-- ASCII lowercasing of one character, as `str.lower()` acts on the
ASCII letters occurring in the source's keyword tests. -/
def lowerChar (c : Char) : Char :=
  if 'A' ≤ c ∧ c ≤ 'Z' then Char.ofNat (c.toNat + 32) else c

/-- `str.lower()`. -/
def strLower (s : String) : String := String.mk (s.data.map lowerChar)

/-- Does `hay` start with `needle` (char-list level)? -/
def startsWith : List Char → List Char → Bool
  | [], _ => true
  | _ :: _, [] => false
  | a :: as, b :: bs => a = b && startsWith as bs

/-- Does `needle` occur as a contiguous substring of `hay`? -/
def infixIn (needle hay : List Char) : Bool :=
  match hay with
  | [] => startsWith needle []
  | _ :: rest => startsWith needle hay || infixIn needle rest

/-- Python's `needle in hay` substring test. -/
def strContains (hay needle : String) : Bool := infixIn needle.data hay.data

/-- Python's `s[-n:]` slice (for `n > 0`): the last `n` characters, or all
of `s` when it is shorter than `n`. -/
def lastChars (s : String) (n : Nat) : String :=
  String.mk (s.data.drop (s.data.length - n))

/-- Python's `l[-n:]` on a message list (for `n > 0`). -/
def lastMsgs (l : List Msg) (n : Nat) : List Msg := l.drop (l.length - n)

/-- Python truthiness of an optional string field (`None` and `""` are
falsy), as tested by `if state.get("error_message"):` and the
`active_*` checks. -/
def optStrTruthy : Option String → Bool
  | none => false
  | some s => !(s == "")

/-- Outcome of the classifier's LLM fallback call, observed after
`json.loads(response.content)`:
`none` is the exception path (the LLM call raised, `json.loads` raised on
malformed output, or the parsed value was not a dict so `.get` raised);
`some (i, c)` is a successfully parsed JSON dict whose optional
`"intent"` / `"confidence"` entries are `i` and `c` — the code reads them
with `result.get("intent", "question")` and `result.get("confidence", 0.7)`. -/
abbrev ClassifierOracle := Option (Option String × Option Int)

/-- `classify_intent_node`: lexical heuristics first, LLM fallback last. -/
def classify_intent_node (llm : ClassifierOracle) (state : DiscoveryState) :
    DiscoveryState :=
  let user_message := strLower state.user_message
  let p :=
    if strContains user_message "draft" || strContains user_message "create"
        || strContains user_message "help me write" then
      ("draft", (90 : Int))
    else if strContains user_message "evaluate" || strContains user_message "review"
        || strContains user_message "feedback" then
      ("evaluate", 90)
    else if strContains user_message "outline" || strContains user_message "structure" then
      ("outline", 90)
    else if strContains user_message "summary" || strContains user_message "summarize" then
      ("question", 90)
    else
      match llm with
      | some (i, c) => (i.getD "question", c.getD 70)
      | none => ("question", 50)
  { state with intent := p.1, confidence_score := p.2 }

/-- `build_context_node`: compose the retrieval query from the active
artifacts and the user message. -/
def build_context_node (state : DiscoveryState) : DiscoveryState :=
  let context_parts : List String :=
    if state.is_summary then []
    else
      (if optStrTruthy state.active_strategic_initiative then
        ["[ACTIVE STRATEGIC INITIATIVE]\n" ++ state.active_strategic_initiative.getD "" ++ "\n"]
       else []) ++
      (if optStrTruthy state.active_epic then
        ["[ACTIVE EPIC]\n" ++ state.active_epic.getD "" ++ "\n"]
       else []) ++
      (if optStrTruthy state.active_feature then
        ["[ACTIVE FEATURE]\n" ++ state.active_feature.getD "" ++ "\n"]
       else [])
  let full_query :=
    if context_parts ≠ [] then
      String.join context_parts ++ "\n[USER QUESTION]\n" ++ state.user_message
    else
      state.user_message
  let retrieval_query :=
    if state.context_type == "strategic-initiative" then
      "Strategic Initiative " ++ full_query
    else if state.context_type == "pi-objective" then
      "PI Objectives " ++ full_query
    else
      full_query
  { state with retrieval_query := retrieval_query }

/-- Outcome of the external retriever call `app_retriever.invoke(...)`:
`none` is the exception path, `some docs` the retrieved passages'
`page_content` strings. -/
abbrev RetrieverOracle := Option (List String)

/-- `retrieve_context_node`: query the vector store, degrade on failure,
skip (with a marker context) on summary requests. -/
def retrieve_context_node (retriever : RetrieverOracle) (state : DiscoveryState) :
    DiscoveryState :=
  if state.is_summary then
    { state with
        context_text := "Summary request - using active context only."
        retrieved_docs := [] }
  else
    match retriever with
    | some docs =>
        { state with
            retrieved_docs := docs
            context_text := String.intercalate "\n\n" docs }
    | none =>
        { state with
            context_text := "Retrieval failed - proceeding with active context only."
            retrieved_docs := [] }

/-- `llm_timeout` selection in `generate_response_node`. -/
def llm_timeout_of (state : DiscoveryState) : Nat :=
  if state.is_draft || state.is_summary then 240 else 90

/-- `max_history` selection in `generate_response_node`. -/
def max_history_of (state : DiscoveryState) : Nat :=
  if state.is_summary then 0 else if state.is_draft then 12 else 10

/-- `chat_history` passed to the generation chain:
`list(state["messages"][-max_history:]) if max_history > 0 else []`. -/
def chat_history_of (state : DiscoveryState) : List Msg :=
  if max_history_of state > 0 then lastMsgs state.messages (max_history_of state) else []

/-- The state-dependent inputs of one `chain.invoke` generation call. -/
structure GenCall where
  user_input : String
  context : String
  chat_history : List Msg
  timeout : Nat
  retry_count : Nat
deriving DecidableEq

/-- The generation call `generate_response_node` issues from a state. -/
def gen_call_of (state : DiscoveryState) : GenCall :=
  { user_input := state.retrieval_query
    context := state.context_text
    chat_history := chat_history_of state
    timeout := llm_timeout_of state
    retry_count := state.retry_count }

/-- The external generator: maps the call inputs to the response content,
or to the exception text `str(e)` on failure. -/
abbrev GenOracle := GenCall → Except String String

/-- `generate_response_node`: invoke the generator; on success store the
response and clear the error, on failure record the error and mark retry. -/
def generate_response_node (gen : GenOracle) (state : DiscoveryState) :
    DiscoveryState :=
  match gen (gen_call_of state) with
  | .ok content =>
      { state with generated_response := content, error_message := none }
  | .error e =>
      { state with error_message := some e, needs_retry := true }

/-- Required template section markers per `context_type` (the `elif`
chain under `if state["intent"] == "draft"`). -/
def required_sections_of (context_type : String) : List String :=
  if context_type == "epic" then
    ["EPIC NAME", "EPIC HYPOTHESIS STATEMENT", "BUSINESS CONTEXT"]
  else if context_type == "strategic-initiative" then
    ["INITIATIVE NAME", "STRATEGIC CONTEXT", "CUSTOMER / USER SEGMENT"]
  else if context_type == "feature" then
    ["FEATURE NAME", "USER STORY", "ACCEPTANCE CRITERIA"]
  else if context_type == "story" then
    ["USER STORY", "ACCEPTANCE CRITERIA"]
  else if context_type == "pi-objective" then
    ["OBJECTIVE", "KEY RESULTS"]
  else []

/-- The length checks of `validate_response_node`. -/
def length_issues (response : String) (is_draft : Bool) : List String :=
  if response.length < 50 then ["Response too short"]
  else if response.length > 5000 && !is_draft then
    ["Response very long - might be overly detailed"]
  else []

/-- The draft template-compliance check of `validate_response_node`. -/
def template_issues (response intent context_type : String) : List String :=
  if intent == "draft" then
    let missing := (required_sections_of context_type).filter
      (fun sec => !(strContains response sec))
    if missing ≠ [] then
      ["Missing sections: " ++ String.intercalate ", " missing]
    else []
  else []

/-- The incompleteness check of `validate_response_node`:
`if "..." in response[-100:] or "[To be filled]" in response:`. -/
def truncation_issues (response : String) : List String :=
  if strContains (lastChars response 100) "..." || strContains response "[To be filled]" then
    ["Response appears incomplete"]
  else []

/-- The full issue list accumulated by `validate_response_node`. -/
def validation_issues_of (response intent context_type : String)
    (is_draft : Bool) : List String :=
  length_issues response is_draft ++ template_issues response intent context_type
    ++ truncation_issues response

/-- `validate_response_node`: run the checks, set the advisory flags. -/
def validate_response_node (state : DiscoveryState) : DiscoveryState :=
  let issues := validation_issues_of state.generated_response state.intent
    state.context_type state.is_draft
  let needs_retry := decide (issues.length > 0) && decide (state.retry_count < 2)
  let needs_clarification :=
    decide (issues.length > 0) && decide (state.confidence_score < 70)
  { state with
      validation_issues := issues
      needs_retry := needs_retry && decide (issues.length > 0)
      needs_clarification := needs_clarification }

/-- Target of the conditional edge after `build_context`. -/
inductive RetrieveRoute where
  | retrieve
  | generate
deriving DecidableEq

/-- `should_retrieve_context`. -/
def should_retrieve_context (state : DiscoveryState) : RetrieveRoute :=
  if state.is_summary then .generate
  else if optStrTruthy state.error_message then .generate
  else .retrieve

/-- Target of the conditional edge after `validate_response`
(`done` is the source's `"end"` label; both `clarify` and `done` are
wired to `END`). -/
inductive ValidationRoute where
  | retry
  | clarify
  | done
deriving DecidableEq

/-- `should_continue_after_validation`. -/
def should_continue_after_validation (state : DiscoveryState) : ValidationRoute :=
  if optStrTruthy state.error_message then
    if state.retry_count < 2 then .retry else .done
  else if state.needs_retry then .retry
  else if state.needs_clarification then .clarify
  else .done

/-- `increment_retry_on_retry`. -/
def increment_retry_on_retry (state : DiscoveryState) : DiscoveryState :=
  { state with retry_count := state.retry_count + 1 }

/-- The three external collaborators of one turn.  The generator oracle
receives the full inputs of each call, so successive attempts (whose
`retry_count` differs) may succeed or fail independently. -/
structure Oracles where
  classifier : ClassifierOracle
  retriever : RetrieverOracle
  gen : GenOracle

/-- Result of executing (part of) the graph: the list of executed node
names, the generation calls issued in order, and the final state. -/
structure RunResult where
  trace : List String
  calls : List GenCall
  final : DiscoveryState
deriving DecidableEq

/-- Execution of the `generate_response → validate_response →
(increment_retry → generate_response)*` loop wired by
`create_discovery_workflow`, bounded by `fuel` generation attempts.
Fuel 3 is enough (proved below), because the retry edge is taken only
while `retry_count < 2`. -/
def runAttempts (gen : GenOracle) : Nat → DiscoveryState → RunResult
  | 0, state => ⟨[], [], state⟩
  | fuel + 1, state =>
    let s₁ := generate_response_node gen state
    let s₂ := validate_response_node s₁
    match should_continue_after_validation s₂ with
    | .retry =>
        let rest := runAttempts gen fuel (increment_retry_on_retry s₂)
        ⟨"generate_response" :: "validate_response" :: "increment_retry" :: rest.trace,
         gen_call_of state :: rest.calls, rest.final⟩
    | _ => ⟨["generate_response", "validate_response"], [gen_call_of state], s₂⟩

/-- The pipeline from the entry point up to (not including) the first
generation attempt: `classify_intent → build_context → conditional
(retrieve_context | skip)`. -/
def preGenerationState (o : Oracles) (s₀ : DiscoveryState) :
    List String × DiscoveryState :=
  let s₁ := classify_intent_node o.classifier s₀
  let s₂ := build_context_node s₁
  match should_retrieve_context s₂ with
  | .retrieve =>
      (["classify_intent", "build_context", "retrieve_context"],
       retrieve_context_node o.retriever s₂)
  | .generate => (["classify_intent", "build_context"], s₂)

/-- One full turn of the compiled graph. -/
def runTurnTr (o : Oracles) (s₀ : DiscoveryState) : RunResult :=
  let pre := preGenerationState o s₀
  let rest := runAttempts o.gen 3 pre.2
  ⟨pre.1 ++ rest.trace, rest.calls, rest.final⟩

/-- The final state of one full turn. -/
def runTurn (o : Oracles) (s₀ : DiscoveryState) : DiscoveryState :=
  (runTurnTr o s₀).final

/-- The message-conversion loop of `prepare_initial_state`: dicts tagged
`"human"` / `"ai"` become messages, other dicts are dropped, message
objects pass through. -/
def convert_history : List HistEntry → List Msg
  | [] => []
  | .dict t c :: rest =>
      if t == "human" then .human c :: convert_history rest
      else if t == "ai" then .ai c :: convert_history rest
      else convert_history rest
  | .msg m :: rest => m :: convert_history rest

/-- `prepare_initial_state`. -/
def prepare_initial_state (message context_type model provider : String)
    (temperature : Int)
    (active_epic active_feature active_strategic_initiative : Option String)
    (chat_history : List HistEntry) : DiscoveryState :=
  let is_summary := strContains (strLower message) "summary"
    || strContains (strLower message) "summarize"
  let is_draft := strContains (strLower message) "draft"
  { messages := convert_history chat_history
    user_message := message
    context_type := context_type
    active_epic := active_epic
    active_feature := active_feature
    active_strategic_initiative := active_strategic_initiative
    intent := ""
    confidence_score := 0
    retrieval_query := ""
    retrieved_docs := []
    context_text := ""
    generated_response := ""
    needs_clarification := false
    needs_retry := false
    validation_issues := []
    retry_count := 0
    model := model
    provider := provider
    temperature := temperature
    is_summary := is_summary
    is_draft := is_draft
    error_message := none }

/-- Does every `"increment_retry"` entry of a node trace have
`"generate_response"` as the immediately following entry? -/
def incrFollowedByGen : List String → Bool
  | [] => true
  | a :: rest =>
    (!(a == "increment_retry") ||
      (match rest with
       | b :: _ => b == "generate_response"
       | [] => false))
    && incrFollowedByGen rest

/-- `true` when the message matches none of the lexical heuristics of
`classify_intent_node`, i.e. when the classifier falls through to its
LLM call. -/
def heuristic_miss (message : String) : Bool :=
  let m := strLower message
  !(strContains m "draft" || strContains m "create" || strContains m "help me write"
    || strContains m "evaluate" || strContains m "review" || strContains m "feedback"
    || strContains m "outline" || strContains m "structure"
    || strContains m "summary" || strContains m "summarize")

/-! ### Concrete fixtures used by witnesses and counterexamples -/

/-- A 60-character response: long enough, no ellipsis, no placeholder. -/
def fineText : String := String.mk (List.replicate 60 'x')

def oFine : Oracles := ⟨none, some ["A passage from the knowledge base"], fun _ => .ok fineText⟩

def oShort : Oracles := ⟨none, some ["A passage from the knowledge base"], fun _ => .ok "short"⟩

def oFailAll : Oracles := ⟨none, some ["A passage from the knowledge base"], fun _ => .error "boom"⟩

def sOutline : DiscoveryState :=
  prepare_initial_state "outline a feature" "feature" "m" "ollama" 30 none none none []

def hist12 : List HistEntry := List.replicate 12 (HistEntry.dict "human" "hi")

def sCreate : DiscoveryState :=
  prepare_initial_state "create an epic for the checkout flow" "epic" "m" "ollama" 30
    none none none hist12

def sSummary : DiscoveryState :=
  prepare_initial_state "summarize what we have so far" "epic" "m" "ollama" 30
    (some "EPIC TEXT") none none []

def sSummarySI : DiscoveryState :=
  prepare_initial_state "summarize the initiative" "strategic-initiative" "m" "ollama" 30
    none none (some "SI TEXT") []

def sSummaryPI : DiscoveryState :=
  prepare_initial_state "summarize the objectives" "pi-objective" "m" "ollama" 30
    none none none []

def helloState : DiscoveryState :=
  prepare_initial_state "hello there friend" "epic" "m" "ollama" 30 none none none []

/-- A response whose placeholder marker sits wholly before the final 100
characters. -/
def respPlaceholderEarly : String := "[To be filled]" ++ String.mk (List.replicate 100 'x')

def stateWithError : DiscoveryState := { sOutline with error_message := some "boom" }

/-! ### Frame lemmas: which state fields each node leaves unchanged -/

theorem classify_messages (llm : ClassifierOracle) (s : DiscoveryState) :
    (classify_intent_node llm s).messages = s.messages := rfl

theorem classify_retry_count (llm : ClassifierOracle) (s : DiscoveryState) :
    (classify_intent_node llm s).retry_count = s.retry_count := rfl

theorem classify_error_message (llm : ClassifierOracle) (s : DiscoveryState) :
    (classify_intent_node llm s).error_message = s.error_message := rfl

theorem classify_is_summary (llm : ClassifierOracle) (s : DiscoveryState) :
    (classify_intent_node llm s).is_summary = s.is_summary := rfl

theorem classify_is_draft (llm : ClassifierOracle) (s : DiscoveryState) :
    (classify_intent_node llm s).is_draft = s.is_draft := rfl

theorem classify_context_text (llm : ClassifierOracle) (s : DiscoveryState) :
    (classify_intent_node llm s).context_text = s.context_text := rfl

theorem classify_retrieved_docs (llm : ClassifierOracle) (s : DiscoveryState) :
    (classify_intent_node llm s).retrieved_docs = s.retrieved_docs := rfl

theorem classify_generated_response (llm : ClassifierOracle) (s : DiscoveryState) :
    (classify_intent_node llm s).generated_response = s.generated_response := rfl

theorem build_messages (s : DiscoveryState) :
    (build_context_node s).messages = s.messages := rfl

theorem build_retry_count (s : DiscoveryState) :
    (build_context_node s).retry_count = s.retry_count := rfl

theorem build_error_message (s : DiscoveryState) :
    (build_context_node s).error_message = s.error_message := rfl

theorem build_is_summary (s : DiscoveryState) :
    (build_context_node s).is_summary = s.is_summary := rfl

theorem build_is_draft (s : DiscoveryState) :
    (build_context_node s).is_draft = s.is_draft := rfl

theorem build_context_text (s : DiscoveryState) :
    (build_context_node s).context_text = s.context_text := rfl

theorem build_retrieved_docs (s : DiscoveryState) :
    (build_context_node s).retrieved_docs = s.retrieved_docs := rfl

theorem build_generated_response (s : DiscoveryState) :
    (build_context_node s).generated_response = s.generated_response := rfl

theorem build_intent (s : DiscoveryState) :
    (build_context_node s).intent = s.intent := rfl

theorem retrieve_retry_count (r : RetrieverOracle) (s : DiscoveryState) :
    (retrieve_context_node r s).retry_count = s.retry_count := by
  cases r <;> simp only [retrieve_context_node] <;> split <;> rfl

theorem retrieve_messages (r : RetrieverOracle) (s : DiscoveryState) :
    (retrieve_context_node r s).messages = s.messages := by
  cases r <;> simp only [retrieve_context_node] <;> split <;> rfl

theorem retrieve_error_message (r : RetrieverOracle) (s : DiscoveryState) :
    (retrieve_context_node r s).error_message = s.error_message := by
  cases r <;> simp only [retrieve_context_node] <;> split <;> rfl

theorem retrieve_is_summary (r : RetrieverOracle) (s : DiscoveryState) :
    (retrieve_context_node r s).is_summary = s.is_summary := by
  cases r <;> simp only [retrieve_context_node] <;> split <;> rfl

theorem retrieve_is_draft (r : RetrieverOracle) (s : DiscoveryState) :
    (retrieve_context_node r s).is_draft = s.is_draft := by
  cases r <;> simp only [retrieve_context_node] <;> split <;> rfl

theorem retrieve_generated_response (r : RetrieverOracle) (s : DiscoveryState) :
    (retrieve_context_node r s).generated_response = s.generated_response := by
  cases r <;> simp only [retrieve_context_node] <;> split <;> rfl

theorem retrieve_intent (r : RetrieverOracle) (s : DiscoveryState) :
    (retrieve_context_node r s).intent = s.intent := by
  cases r <;> simp only [retrieve_context_node] <;> split <;> rfl

theorem validate_retry_count (s : DiscoveryState) :
    (validate_response_node s).retry_count = s.retry_count := rfl

theorem validate_error_message (s : DiscoveryState) :
    (validate_response_node s).error_message = s.error_message := rfl

theorem validate_messages (s : DiscoveryState) :
    (validate_response_node s).messages = s.messages := rfl

theorem validate_is_summary (s : DiscoveryState) :
    (validate_response_node s).is_summary = s.is_summary := rfl

theorem validate_is_draft (s : DiscoveryState) :
    (validate_response_node s).is_draft = s.is_draft := rfl

theorem validate_generated_response (s : DiscoveryState) :
    (validate_response_node s).generated_response = s.generated_response := rfl

theorem validate_intent (s : DiscoveryState) :
    (validate_response_node s).intent = s.intent := rfl

theorem validate_context_type (s : DiscoveryState) :
    (validate_response_node s).context_type = s.context_type := rfl

theorem increment_retry_count (s : DiscoveryState) :
    (increment_retry_on_retry s).retry_count = s.retry_count + 1 := rfl

theorem generate_retry_count (gen : GenOracle) (s : DiscoveryState) :
    (generate_response_node gen s).retry_count = s.retry_count := by
  unfold generate_response_node; cases gen (gen_call_of s) <;> rfl

theorem generate_messages (gen : GenOracle) (s : DiscoveryState) :
    (generate_response_node gen s).messages = s.messages := by
  unfold generate_response_node; cases gen (gen_call_of s) <;> rfl

theorem generate_is_summary (gen : GenOracle) (s : DiscoveryState) :
    (generate_response_node gen s).is_summary = s.is_summary := by
  unfold generate_response_node; cases gen (gen_call_of s) <;> rfl

theorem generate_is_draft (gen : GenOracle) (s : DiscoveryState) :
    (generate_response_node gen s).is_draft = s.is_draft := by
  unfold generate_response_node; cases gen (gen_call_of s) <;> rfl

theorem generate_intent (gen : GenOracle) (s : DiscoveryState) :
    (generate_response_node gen s).intent = s.intent := by
  unfold generate_response_node; cases gen (gen_call_of s) <;> rfl

theorem generate_context_type (gen : GenOracle) (s : DiscoveryState) :
    (generate_response_node gen s).context_type = s.context_type := by
  unfold generate_response_node; cases gen (gen_call_of s) <;> rfl

theorem generate_confidence (gen : GenOracle) (s : DiscoveryState) :
    (generate_response_node gen s).confidence_score = s.confidence_score := by
  unfold generate_response_node; cases gen (gen_call_of s) <;> rfl

theorem generate_context_text (gen : GenOracle) (s : DiscoveryState) :
    (generate_response_node gen s).context_text = s.context_text := by
  unfold generate_response_node; cases gen (gen_call_of s) <;> rfl

theorem generate_retrieval_query (gen : GenOracle) (s : DiscoveryState) :
    (generate_response_node gen s).retrieval_query = s.retrieval_query := by
  unfold generate_response_node; cases gen (gen_call_of s) <;> rfl

/-- On a failed generation attempt the generated response is left
unchanged; only the error and the retry mark are recorded. -/
theorem generate_fail_keeps_response (gen : GenOracle) (s : DiscoveryState)
    (e : String) (h : gen (gen_call_of s) = .error e) :
    (generate_response_node gen s).generated_response = s.generated_response := by
  unfold generate_response_node; rw [h]

/-- On a failed generation attempt the recorded error is the failure text. -/
theorem generate_fail_error (gen : GenOracle) (s : DiscoveryState)
    (e : String) (h : gen (gen_call_of s) = .error e) :
    (generate_response_node gen s).error_message = some e := by
  unfold generate_response_node; rw [h]

/-- `validate_response_node` marks `needs_retry` only while the retry
counter is still strictly below 2. -/
theorem validate_needs_retry_lt (s : DiscoveryState)
    (h : (validate_response_node s).needs_retry = true) : s.retry_count < 2 := by
  simp only [validate_response_node, Bool.and_eq_true, decide_eq_true_eq] at h
  exact h.1.2

/-- The retry transition out of validation is taken only when the retry
counter is strictly below 2, whether the trigger is a recorded error or
validation issues. -/
theorem validate_route_retry_lt (s : DiscoveryState)
    (h : should_continue_after_validation (validate_response_node s) = .retry) :
    s.retry_count < 2 := by
  unfold should_continue_after_validation at h
  rw [validate_error_message, validate_retry_count] at h
  split at h
  · split at h
    · assumption
    · simp at h
  · split at h
    next hnr => exact validate_needs_retry_lt s hnr
    next => split at h <;> simp at h

/-- A validation output with `needs_retry` off while the counter is below
2 has an empty issue list. -/
theorem validate_no_retry_no_issues (s : DiscoveryState)
    (h : (validate_response_node s).needs_retry = false)
    (hlt : s.retry_count < 2) :
    (validate_response_node s).validation_issues = [] := by
  have hlen : (validation_issues_of s.generated_response s.intent s.context_type
      s.is_draft).length = 0 := by
    by_contra hne
    have hpos := Nat.pos_of_ne_zero hne
    have htrue : (validate_response_node s).needs_retry = true := by
      simp only [validate_response_node, Bool.and_eq_true, decide_eq_true_eq]
      exact ⟨⟨hpos, hlt⟩, hpos⟩
    rw [h] at htrue
    cases htrue
  simp only [validate_response_node]
  exact List.length_eq_zero.mp hlen

theorem increment_messages (s : DiscoveryState) :
    (increment_retry_on_retry s).messages = s.messages := rfl

theorem increment_is_summary (s : DiscoveryState) :
    (increment_retry_on_retry s).is_summary = s.is_summary := rfl

theorem increment_is_draft (s : DiscoveryState) :
    (increment_retry_on_retry s).is_draft = s.is_draft := rfl

/-- The history truncation depends only on the message list and the
summary/draft flags. -/
theorem chat_history_congr (s t : DiscoveryState) (hm : s.messages = t.messages)
    (hs : s.is_summary = t.is_summary) (hd : s.is_draft = t.is_draft) :
    chat_history_of s = chat_history_of t := by
  unfold chat_history_of max_history_of lastMsgs
  rw [hm, hs, hd]

/-- The timeout selection depends only on the summary/draft flags. -/
theorem llm_timeout_congr (s t : DiscoveryState)
    (hs : s.is_summary = t.is_summary) (hd : s.is_draft = t.is_draft) :
    llm_timeout_of s = llm_timeout_of t := by
  unfold llm_timeout_of
  rw [hs, hd]

/-- The loop re-entry state (after `increment_retry`) differs from the
previous attempt's entry state only in `retry_count`, the response and
the validation fields: the generation-call inputs are stable. -/
theorem loop_step_messages (gen : GenOracle) (s : DiscoveryState) :
    (increment_retry_on_retry (validate_response_node
      (generate_response_node gen s))).messages = s.messages :=
  generate_messages gen s

theorem loop_step_is_summary (gen : GenOracle) (s : DiscoveryState) :
    (increment_retry_on_retry (validate_response_node
      (generate_response_node gen s))).is_summary = s.is_summary :=
  generate_is_summary gen s

theorem loop_step_is_draft (gen : GenOracle) (s : DiscoveryState) :
    (increment_retry_on_retry (validate_response_node
      (generate_response_node gen s))).is_draft = s.is_draft :=
  generate_is_draft gen s

theorem loop_step_context_text (gen : GenOracle) (s : DiscoveryState) :
    (increment_retry_on_retry (validate_response_node
      (generate_response_node gen s))).context_text = s.context_text :=
  generate_context_text gen s

theorem loop_step_retrieval_query (gen : GenOracle) (s : DiscoveryState) :
    (increment_retry_on_retry (validate_response_node
      (generate_response_node gen s))).retrieval_query = s.retrieval_query :=
  generate_retrieval_query gen s

theorem loop_step_intent (gen : GenOracle) (s : DiscoveryState) :
    (increment_retry_on_retry (validate_response_node
      (generate_response_node gen s))).intent = s.intent :=
  generate_intent gen s

theorem loop_step_context_type (gen : GenOracle) (s : DiscoveryState) :
    (increment_retry_on_retry (validate_response_node
      (generate_response_node gen s))).context_type = s.context_type :=
  generate_context_type gen s

theorem loop_step_retry_count (gen : GenOracle) (s : DiscoveryState) :
    (increment_retry_on_retry (validate_response_node
      (generate_response_node gen s))).retry_count = s.retry_count + 1 := by
  rw [increment_retry_count, validate_retry_count, generate_retry_count]

/-! ### Invariants of the generation/validation retry loop -/

/-- The final retry counter never exceeds 2 when the loop is entered with
a counter at most 2. -/
theorem runAttempts_final_retry_le (gen : GenOracle) (fuel : Nat)
    (s : DiscoveryState) (h : s.retry_count ≤ 2) :
    (runAttempts gen fuel s).final.retry_count ≤ 2 := by
  induction fuel generalizing s with
  | zero => exact h
  | succ n ih =>
    simp only [runAttempts]
    split
    next heq =>
      have hlt : (generate_response_node gen s).retry_count < 2 :=
        validate_route_retry_lt _ heq
      rw [generate_retry_count] at hlt
      exact ih _ (by rw [loop_step_retry_count]; omega)
    next =>
      show (validate_response_node (generate_response_node gen s)).retry_count ≤ 2
      rw [validate_retry_count, generate_retry_count]
      exact h

theorem beq_gen_incr : (("generate_response" : String) == "increment_retry") = false := rfl

theorem beq_val_incr : (("validate_response" : String) == "increment_retry") = false := rfl

theorem beq_incr_incr : (("increment_retry" : String) == "increment_retry") = true := rfl

theorem beq_gen_gen : (("generate_response" : String) == "generate_response") = true := rfl

/-- Only the three loop nodes appear in the trace of the retry loop. -/
theorem runAttempts_trace_mem (gen : GenOracle) (fuel : Nat) (s : DiscoveryState)
    (x : String) (hx : x ∈ (runAttempts gen fuel s).trace) :
    x = "generate_response" ∨ x = "validate_response" ∨ x = "increment_retry" := by
  induction fuel generalizing s with
  | zero => simp only [runAttempts] at hx; cases hx
  | succ n ih =>
    simp only [runAttempts] at hx
    split at hx
    next =>
      simp only [List.mem_cons] at hx
      rcases hx with h | h | h | h
      · exact Or.inl h
      · exact Or.inr (Or.inl h)
      · exact Or.inr (Or.inr h)
      · exact ih _ h
    next =>
      simp only [List.mem_cons, List.mem_singleton] at hx
      rcases hx with h | h | h
      · exact Or.inl h
      · exact Or.inr (Or.inl h)
      · cases h

/-- A nonempty run of the loop always starts with a generation attempt. -/
theorem runAttempts_trace_head (gen : GenOracle) (fuel : Nat) (s : DiscoveryState)
    (h : 0 < fuel) :
    ∃ l, (runAttempts gen fuel s).trace = "generate_response" :: l := by
  cases fuel with
  | zero => omega
  | succ n =>
    simp only [runAttempts]
    split
    · exact ⟨_, rfl⟩
    · exact ⟨_, rfl⟩

/-- In any sufficiently fuelled run of the loop, every `increment_retry`
step is immediately followed by a `generate_response` step. -/
theorem runAttempts_incr_gen (gen : GenOracle) (fuel : Nat) (s : DiscoveryState)
    (h2 : s.retry_count ≤ 2) (h3 : 3 ≤ s.retry_count + fuel) :
    incrFollowedByGen (runAttempts gen fuel s).trace = true := by
  induction fuel generalizing s with
  | zero => omega
  | succ n ih =>
    simp only [runAttempts]
    split
    next heq =>
      have hlt : s.retry_count < 2 := by
        have h' := validate_route_retry_lt _ heq
        rwa [generate_retry_count] at h'
      have hn : 0 < n := by omega
      obtain ⟨l, hl⟩ := runAttempts_trace_head gen n
        (increment_retry_on_retry (validate_response_node (generate_response_node gen s))) hn
      have hrec := ih
        (increment_retry_on_retry (validate_response_node (generate_response_node gen s)))
        (by rw [loop_step_retry_count]; omega)
        (by rw [loop_step_retry_count]; omega)
      rw [hl] at hrec
      show incrFollowedByGen ("generate_response" :: "validate_response" ::
        "increment_retry" :: (runAttempts gen n (increment_retry_on_retry
          (validate_response_node (generate_response_node gen s)))).trace) = true
      rw [hl]
      simp only [incrFollowedByGen, beq_gen_incr, beq_val_incr, beq_incr_incr, beq_gen_gen,
        Bool.not_false, Bool.true_or, Bool.true_and, Bool.or_false]
      exact hrec
    next =>
      show incrFollowedByGen ["generate_response", "validate_response"] = true
      rfl

theorem beq_gen_val : (("generate_response" : String) == "validate_response") = false := rfl

theorem beq_incr_gen : (("increment_retry" : String) == "generate_response") = false := rfl

theorem beq_val_gen : (("validate_response" : String) == "generate_response") = false := rfl

/-- A loop entered with retry counter `c ≤ 2` performs at most `3 - c`
generation attempts. -/
theorem runAttempts_gen_count (gen : GenOracle) (fuel : Nat) (s : DiscoveryState)
    (h2 : s.retry_count ≤ 2) :
    (runAttempts gen fuel s).trace.count "generate_response" ≤ 3 - s.retry_count := by
  induction fuel generalizing s with
  | zero =>
    show ([] : List String).count "generate_response" ≤ 3 - s.retry_count
    simp
  | succ n ih =>
    simp only [runAttempts]
    split
    next heq =>
      have hlt : s.retry_count < 2 := by
        have h' := validate_route_retry_lt _ heq
        rwa [generate_retry_count] at h'
      have hrec := ih
        (increment_retry_on_retry (validate_response_node (generate_response_node gen s)))
        (by rw [loop_step_retry_count]; omega)
      rw [loop_step_retry_count] at hrec
      show ("generate_response" :: "validate_response" :: "increment_retry" ::
        (runAttempts gen n (increment_retry_on_retry
          (validate_response_node (generate_response_node gen s)))).trace).count
            "generate_response" ≤ 3 - s.retry_count
      simp only [List.count_cons, beq_incr_gen, beq_val_gen, beq_gen_gen] at hrec ⊢
      simp only [if_true, if_false, Bool.false_eq_true, reduceIte] at hrec ⊢
      omega
    next =>
      show (["generate_response", "validate_response"] : List String).count
        "generate_response" ≤ 3 - s.retry_count
      have : (["generate_response", "validate_response"] : List String).count
        "generate_response" = 1 := rfl
      omega

/-- A sufficiently fuelled loop ends in a state routed to a terminal
disposition: the retry edge is not taken from the final state. -/
theorem runAttempts_final_terminal (gen : GenOracle) (fuel : Nat) (s : DiscoveryState)
    (h2 : s.retry_count ≤ 2) (h3 : 3 ≤ s.retry_count + fuel) :
    should_continue_after_validation (runAttempts gen fuel s).final ≠ .retry := by
  induction fuel generalizing s with
  | zero => omega
  | succ n ih =>
    simp only [runAttempts]
    split
    next heq =>
      have hlt : s.retry_count < 2 := by
        have h' := validate_route_retry_lt _ heq
        rwa [generate_retry_count] at h'
      exact ih
        (increment_retry_on_retry (validate_response_node (generate_response_node gen s)))
        (by rw [loop_step_retry_count]; omega)
        (by rw [loop_step_retry_count]; omega)
    next hne =>
      intro hcontra
      exact hne hcontra

/-- The final state of a sufficiently fuelled loop run is the output of
`validate_response_node`. -/
theorem runAttempts_final_shape (gen : GenOracle) (fuel : Nat) (s : DiscoveryState)
    (h2 : s.retry_count ≤ 2) (h3 : 3 ≤ s.retry_count + fuel) :
    ∃ t, (runAttempts gen fuel s).final = validate_response_node t := by
  induction fuel generalizing s with
  | zero => omega
  | succ n ih =>
    simp only [runAttempts]
    split
    next heq =>
      have hlt : s.retry_count < 2 := by
        have h' := validate_route_retry_lt _ heq
        rwa [generate_retry_count] at h'
      exact ih
        (increment_retry_on_retry (validate_response_node (generate_response_node gen s)))
        (by rw [loop_step_retry_count]; omega)
        (by rw [loop_step_retry_count]; omega)
    next => exact ⟨generate_response_node gen s, rfl⟩

/-- Every generation call issued by the retry loop carries the same
user input, context string, chat history and timeout as the state the
loop was entered with: retries re-generate, they never rebuild context,
redo retrieval or change the history window. -/
theorem runAttempts_calls_fields (gen : GenOracle) (fuel : Nat) (s : DiscoveryState)
    (c : GenCall) (hc : c ∈ (runAttempts gen fuel s).calls) :
    c.user_input = s.retrieval_query ∧ c.context = s.context_text ∧
    c.chat_history = chat_history_of s ∧ c.timeout = llm_timeout_of s := by
  induction fuel generalizing s with
  | zero => simp only [runAttempts] at hc; cases hc
  | succ n ih =>
    simp only [runAttempts] at hc
    split at hc
    next =>
      simp only [List.mem_cons] at hc
      rcases hc with rfl | hc
      · exact ⟨rfl, rfl, rfl, rfl⟩
      · obtain ⟨h1, h2, h3, h4⟩ := ih
          (increment_retry_on_retry (validate_response_node (generate_response_node gen s))) hc
        refine ⟨?_, ?_, ?_, ?_⟩
        · rw [h1, loop_step_retrieval_query]
        · rw [h2, loop_step_context_text]
        · rw [h3]
          exact chat_history_congr _ _ (loop_step_messages gen s)
            (loop_step_is_summary gen s) (loop_step_is_draft gen s)
        · rw [h4]
          exact llm_timeout_congr _ _ (loop_step_is_summary gen s) (loop_step_is_draft gen s)
    next =>
      simp only [List.mem_singleton] at hc
      subst hc
      exact ⟨rfl, rfl, rfl, rfl⟩

/-- When every generation attempt fails (with a nonempty error text), the
loop exhausts its retries: the final state keeps the entry state's
generated response untouched, reaches retry counter 2, carries a truthy
recorded error, is routed to terminal end, and its issue list is the
validation of the stale response under the entry state's intent and
artifact type. -/
theorem runAttempts_allfail (gen : GenOracle) (f : GenCall → String)
    (hgen : ∀ c, gen c = .error (f c)) (hf : ∀ c, f c ≠ "")
    (fuel : Nat) (s : DiscoveryState)
    (h2 : s.retry_count ≤ 2) (h3 : 3 ≤ s.retry_count + fuel) :
    (runAttempts gen fuel s).final.generated_response = s.generated_response ∧
    (runAttempts gen fuel s).final.retry_count = 2 ∧
    optStrTruthy (runAttempts gen fuel s).final.error_message = true ∧
    should_continue_after_validation (runAttempts gen fuel s).final = .done ∧
    (runAttempts gen fuel s).final.validation_issues =
      validation_issues_of s.generated_response s.intent s.context_type s.is_draft := by
  induction fuel generalizing s with
  | zero => omega
  | succ n ih =>
    have hs1 : generate_response_node gen s =
        { s with error_message := some (f (gen_call_of s)), needs_retry := true } := by
      unfold generate_response_node
      rw [hgen (gen_call_of s)]
    have herr : optStrTruthy (validate_response_node
        (generate_response_node gen s)).error_message = true := by
      rw [validate_error_message, hs1]
      show (!(f (gen_call_of s) == "")) = true
      simp [hf (gen_call_of s)]
    have hroute : should_continue_after_validation (validate_response_node
        (generate_response_node gen s)) =
        (if s.retry_count < 2 then ValidationRoute.retry else .done) := by
      unfold should_continue_after_validation
      rw [if_pos herr, validate_retry_count, generate_retry_count]
    simp only [runAttempts]
    split
    next heq =>
      have hlt : s.retry_count < 2 := by
        have h' := validate_route_retry_lt _ heq
        rwa [generate_retry_count] at h'
      obtain ⟨i1, i2, i3, i4, i5⟩ := ih
        (increment_retry_on_retry (validate_response_node (generate_response_node gen s)))
        (by rw [loop_step_retry_count]; omega)
        (by rw [loop_step_retry_count]; omega)
      refine ⟨?_, i2, i3, i4, ?_⟩
      · rw [i1]
        show (generate_response_node gen s).generated_response = s.generated_response
        exact generate_fail_keeps_response gen s _ (hgen _)
      · rw [i5]
        have hresp : (increment_retry_on_retry (validate_response_node
            (generate_response_node gen s))).generated_response = s.generated_response :=
          generate_fail_keeps_response gen s _ (hgen _)
        rw [hresp, loop_step_intent, loop_step_context_type, loop_step_is_draft]
    next hne =>
      have hge : ¬ s.retry_count < 2 := by
        intro hlt
        rw [hroute, if_pos hlt] at hne
        exact hne rfl
      have hrc : s.retry_count = 2 := by omega
      have hresp : (validate_response_node (generate_response_node gen s)).generated_response
          = s.generated_response := by
        rw [validate_generated_response]
        exact generate_fail_keeps_response gen s _ (hgen _)
      refine ⟨hresp, ?_, herr, ?_, ?_⟩
      · rw [validate_retry_count, generate_retry_count]
        exact hrc
      · rw [hroute, if_neg hge]
      · show validation_issues_of (validate_response_node
          (generate_response_node gen s)).generated_response _ _ _ =
          validation_issues_of s.generated_response s.intent s.context_type s.is_draft
        rw [hresp]
        rw [generate_intent, generate_context_type, generate_is_draft]

theorem generate_retrieved_docs (gen : GenOracle) (s : DiscoveryState) :
    (generate_response_node gen s).retrieved_docs = s.retrieved_docs := by
  unfold generate_response_node; cases gen (gen_call_of s) <;> rfl

/-- The retry loop never touches the retrieved passages. -/
theorem runAttempts_final_retrieved_docs (gen : GenOracle) (fuel : Nat)
    (s : DiscoveryState) :
    (runAttempts gen fuel s).final.retrieved_docs = s.retrieved_docs := by
  induction fuel generalizing s with
  | zero => rfl
  | succ n ih =>
    simp only [runAttempts]
    split
    next =>
      rw [ih]
      show (generate_response_node gen s).retrieved_docs = s.retrieved_docs
      exact generate_retrieved_docs gen s
    next =>
      show (validate_response_node (generate_response_node gen s)).retrieved_docs
        = s.retrieved_docs
      exact generate_retrieved_docs gen s

/-- Routing after `build_context` when the state is summary-flagged. -/
theorem should_retrieve_of_summary (s : DiscoveryState) (h : s.is_summary = true) :
    should_retrieve_context s = .generate := by
  unfold should_retrieve_context
  rw [if_pos h]

/-- Routing after `build_context` for a non-summary state with no
recorded error. -/
theorem should_retrieve_of_no_error (s : DiscoveryState) (hs : s.is_summary = false)
    (he : s.error_message = none) : should_retrieve_context s = .retrieve := by
  unfold should_retrieve_context
  rw [if_neg (by rw [hs]; exact Bool.false_ne_true), if_neg (by rw [he]; exact Bool.false_ne_true)]

/-- On a summary-flagged request the conditional edge bypasses
`retrieve_context` entirely. -/
theorem preGen_summary (o : Oracles) (s₀ : DiscoveryState) (h : s₀.is_summary = true) :
    preGenerationState o s₀ =
      (["classify_intent", "build_context"],
       build_context_node (classify_intent_node o.classifier s₀)) := by
  simp only [preGenerationState]
  rw [should_retrieve_of_summary _ (by rw [build_is_summary, classify_is_summary]; exact h)]

/-- On a non-summary request with no recorded error the conditional edge
goes through `retrieve_context`. -/
theorem preGen_no_summary (o : Oracles) (s₀ : DiscoveryState) (hs : s₀.is_summary = false)
    (he : s₀.error_message = none) :
    preGenerationState o s₀ =
      (["classify_intent", "build_context", "retrieve_context"],
       retrieve_context_node o.retriever
         (build_context_node (classify_intent_node o.classifier s₀))) := by
  simp only [preGenerationState]
  rw [should_retrieve_of_no_error _ (by rw [build_is_summary, classify_is_summary]; exact hs)
    (by rw [build_error_message, classify_error_message]; exact he)]

/-- The entry trace is one of the two wired prefixes. -/
theorem preGen_fst (o : Oracles) (s₀ : DiscoveryState) :
    (preGenerationState o s₀).1 = ["classify_intent", "build_context"] ∨
    (preGenerationState o s₀).1 = ["classify_intent", "build_context", "retrieve_context"] := by
  simp only [preGenerationState]
  split
  · exact Or.inr rfl
  · exact Or.inl rfl

theorem preGen_retry_count (o : Oracles) (s₀ : DiscoveryState) :
    (preGenerationState o s₀).2.retry_count = s₀.retry_count := by
  simp only [preGenerationState]
  split
  · show (retrieve_context_node o.retriever (build_context_node
      (classify_intent_node o.classifier s₀))).retry_count = s₀.retry_count
    rw [retrieve_retry_count, build_retry_count, classify_retry_count]
  · rfl

theorem preGen_messages (o : Oracles) (s₀ : DiscoveryState) :
    (preGenerationState o s₀).2.messages = s₀.messages := by
  simp only [preGenerationState]
  split
  · show (retrieve_context_node o.retriever (build_context_node
      (classify_intent_node o.classifier s₀))).messages = s₀.messages
    rw [retrieve_messages, build_messages, classify_messages]
  · rfl

theorem preGen_is_summary (o : Oracles) (s₀ : DiscoveryState) :
    (preGenerationState o s₀).2.is_summary = s₀.is_summary := by
  simp only [preGenerationState]
  split
  · show (retrieve_context_node o.retriever (build_context_node
      (classify_intent_node o.classifier s₀))).is_summary = s₀.is_summary
    rw [retrieve_is_summary, build_is_summary, classify_is_summary]
  · rfl

theorem preGen_is_draft (o : Oracles) (s₀ : DiscoveryState) :
    (preGenerationState o s₀).2.is_draft = s₀.is_draft := by
  simp only [preGenerationState]
  split
  · show (retrieve_context_node o.retriever (build_context_node
      (classify_intent_node o.classifier s₀))).is_draft = s₀.is_draft
    rw [retrieve_is_draft, build_is_draft, classify_is_draft]
  · rfl

theorem preGen_generated_response (o : Oracles) (s₀ : DiscoveryState) :
    (preGenerationState o s₀).2.generated_response = s₀.generated_response := by
  simp only [preGenerationState]
  split
  · show (retrieve_context_node o.retriever (build_context_node
      (classify_intent_node o.classifier s₀))).generated_response = s₀.generated_response
    rw [retrieve_generated_response, build_generated_response, classify_generated_response]
  · rfl

/-- The history truncation rule, written out by flags. -/
theorem chat_history_formula (s : DiscoveryState) :
    chat_history_of s =
      (if s.is_summary then ([] : List Msg)
       else if s.is_draft then lastMsgs s.messages 12
       else lastMsgs s.messages 10) := by
  unfold chat_history_of max_history_of
  by_cases hs : s.is_summary = true
  · simp [hs]
  · by_cases hd : s.is_draft = true
    · simp [hs, hd]
    · simp [hs, hd]

/-- Appending a good loop trace to a prefix free of `increment_retry`
keeps the adjacency property. -/
theorem incrFollowedByGen_append (a b : List String)
    (ha : "increment_retry" ∉ a) (hb : incrFollowedByGen b = true) :
    incrFollowedByGen (a ++ b) = true := by
  induction a with
  | nil => simpa using hb
  | cons x xs ih =>
    have hx : x ≠ "increment_retry" := fun h => ha (h ▸ List.mem_cons_self x xs)
    have hbeq : (x == "increment_retry") = false := by
      simp [hx]
    simp only [List.cons_append, incrFollowedByGen, hbeq, Bool.not_false, Bool.true_or,
      Bool.true_and]
    exact ih (fun h => ha (List.mem_cons_of_mem x h))


/-! ### Claims -/

/-- C1: For every turn, the retry counter starts at 0; the increment_retry
transition out of validation is taken only when the current retry counter
is strictly less than 2 (whether triggered by a recorded generation error
or by validation issues); and the retry counter observed by the caller at
the terminal disposition never exceeds 2. -/
theorem C1_retry_counter_bounds :
    (∀ message context_type model provider temperature ae af asi hist,
      (prepare_initial_state message context_type model provider temperature
        ae af asi hist).retry_count = 0) ∧
    (∀ s : DiscoveryState,
      should_continue_after_validation (validate_response_node s) = .retry →
      s.retry_count < 2) ∧
    (∀ (o : Oracles) message context_type model provider temperature ae af asi hist,
      (runTurn o (prepare_initial_state message context_type model provider temperature
        ae af asi hist)).retry_count ≤ 2) := by
  refine ⟨fun _ _ _ _ _ _ _ _ _ => rfl, fun s h => validate_route_retry_lt s h, ?_⟩
  intro o message context_type model provider temperature ae af asi hist
  show (runAttempts o.gen 3 (preGenerationState o (prepare_initial_state message
    context_type model provider temperature ae af asi hist)).2).final.retry_count ≤ 2
  apply runAttempts_final_retry_le
  rw [preGen_retry_count]
  show (0 : Nat) ≤ 2
  omega

/-- Witness for C1: a state carrying a recorded error with retry counter 0
is routed to retry, and the theorem yields its counter bound. -/
theorem C1_retry_counter_bounds_witness : stateWithError.retry_count < 2 :=
  C1_retry_counter_bounds.2.1 stateWithError (by decide)

/-- C7: Within one turn, every increment_retry transition raises the retry
counter by exactly 1; in the executed node sequence every increment_retry
step is immediately followed by generate_response (the loop re-enters only
at generation); the turn performs at most 3 generation attempts; and the
final state is routed to a terminal disposition, not to retry. -/
theorem C7_retry_loop_shape :
    (∀ s : DiscoveryState, (increment_retry_on_retry s).retry_count = s.retry_count + 1) ∧
    (∀ (o : Oracles) message context_type model provider temperature ae af asi hist,
      incrFollowedByGen (runTurnTr o (prepare_initial_state message context_type model
        provider temperature ae af asi hist)).trace = true) ∧
    (∀ (o : Oracles) message context_type model provider temperature ae af asi hist,
      (runTurnTr o (prepare_initial_state message context_type model provider temperature
        ae af asi hist)).trace.count "generate_response" ≤ 3) ∧
    (∀ (o : Oracles) message context_type model provider temperature ae af asi hist,
      should_continue_after_validation (runTurn o (prepare_initial_state message
        context_type model provider temperature ae af asi hist)) ≠ .retry) := by
  refine ⟨fun s => rfl, ?_, ?_, ?_⟩
  · intro o message context_type model provider temperature ae af asi hist
    set s₀ := prepare_initial_state message context_type model provider temperature
      ae af asi hist with hs₀
    show incrFollowedByGen ((preGenerationState o s₀).1 ++
      (runAttempts o.gen 3 (preGenerationState o s₀).2).trace) = true
    have hb : incrFollowedByGen (runAttempts o.gen 3 (preGenerationState o s₀).2).trace
        = true := by
      apply runAttempts_incr_gen
      · rw [preGen_retry_count]; exact Nat.zero_le 2
      · rw [preGen_retry_count]; show 3 ≤ 0 + 3; omega
    rcases preGen_fst o s₀ with hpre | hpre <;> rw [hpre] <;>
      exact incrFollowedByGen_append _ _ (by decide) hb
  · intro o message context_type model provider temperature ae af asi hist
    set s₀ := prepare_initial_state message context_type model provider temperature
      ae af asi hist with hs₀
    show ((preGenerationState o s₀).1 ++
      (runAttempts o.gen 3 (preGenerationState o s₀).2).trace).count "generate_response" ≤ 3
    rw [List.count_append]
    have hb : (runAttempts o.gen 3 (preGenerationState o s₀).2).trace.count
        "generate_response" ≤ 3 := by
      have h := runAttempts_gen_count o.gen 3 (preGenerationState o s₀).2
        (by rw [preGen_retry_count]; exact Nat.zero_le 2)
      omega
    rcases preGen_fst o s₀ with hpre | hpre <;> rw [hpre] <;>
      · have h0 : (List.count "generate_response" ["classify_intent", "build_context"] = 0
          ∧ List.count "generate_response"
            ["classify_intent", "build_context", "retrieve_context"] = 0) := by decide
        omega
  · intro o message context_type model provider temperature ae af asi hist
    show should_continue_after_validation (runAttempts o.gen 3 (preGenerationState o
      (prepare_initial_state message context_type model provider temperature
        ae af asi hist)).2).final ≠ .retry
    apply runAttempts_final_terminal
    · rw [preGen_retry_count]; exact Nat.zero_le 2
    · rw [preGen_retry_count]; show 3 ≤ 0 + 3; omega

/-- C9: At the retrieve-or-skip decision after build_context, the recorded
error field is always None, so the decision reduces to the summary flag
alone (the error branch of `should_retrieve_context` is unreachable on
this evaluation), and the retrieval node executes at most once per turn. -/
theorem C9_retrieve_decision :
    ∀ (o : Oracles) message context_type model provider temperature ae af asi hist,
      (build_context_node (classify_intent_node o.classifier
        (prepare_initial_state message context_type model provider temperature
          ae af asi hist))).error_message = none ∧
      should_retrieve_context (build_context_node (classify_intent_node o.classifier
        (prepare_initial_state message context_type model provider temperature
          ae af asi hist))) =
        (if (build_context_node (classify_intent_node o.classifier
          (prepare_initial_state message context_type model provider temperature
            ae af asi hist))).is_summary then RetrieveRoute.generate else .retrieve) ∧
      (runTurnTr o (prepare_initial_state message context_type model provider temperature
        ae af asi hist)).trace.count "retrieve_context" ≤ 1 := by
  intro o message context_type model provider temperature ae af asi hist
  set s₀ := prepare_initial_state message context_type model provider temperature
    ae af asi hist with hs₀
  have herr : (build_context_node (classify_intent_node o.classifier s₀)).error_message
      = none := rfl
  refine ⟨herr, ?_, ?_⟩
  · by_cases hsum : (build_context_node (classify_intent_node o.classifier s₀)).is_summary
      = true
    · rw [should_retrieve_of_summary _ hsum, if_pos hsum]
    · have hsum' : (build_context_node (classify_intent_node o.classifier s₀)).is_summary
        = false := by
        cases h : (build_context_node (classify_intent_node o.classifier s₀)).is_summary
        · rfl
        · exact absurd h hsum
      have hcond : ¬ ((build_context_node (classify_intent_node o.classifier s₀)).is_summary
          = true) := by rw [hsum']; exact Bool.false_ne_true
      rw [should_retrieve_of_no_error _ hsum' herr, if_neg hcond]
  · show ((preGenerationState o s₀).1 ++
      (runAttempts o.gen 3 (preGenerationState o s₀).2).trace).count "retrieve_context" ≤ 1
    rw [List.count_append]
    have hb : (runAttempts o.gen 3 (preGenerationState o s₀).2).trace.count
        "retrieve_context" = 0 := by
      rw [List.count_eq_zero]
      intro hmem
      rcases runAttempts_trace_mem o.gen 3 _ _ hmem with h | h | h <;>
        exact absurd h (by decide)
    rcases preGen_fst o s₀ with hpre | hpre <;> rw [hpre] <;>
      · have h0 : (List.count "retrieve_context" ["classify_intent", "build_context"] = 0
          ∧ List.count "retrieve_context"
            ["classify_intent", "build_context", "retrieve_context"] = 1) := by decide
        omega

/-- C2 counterexample: on a summary-flagged turn the retrieval node is
indeed never executed, but the context string handed to the generation
call is the untouched initial empty string, not the fixed degraded-context
marker: the marker is assigned only inside `retrieve_context_node`, which
the conditional edge bypasses, so it is never produced. -/
theorem C2_counterexample :
    sSummary.is_summary = true ∧
    (runTurnTr oFine sSummary).trace.count "retrieve_context" = 0 ∧
    (runTurnTr oFine sSummary).calls.map (fun c => c.context) = [""] ∧
    ("" : String) ≠ "Summary request - using active context only." := by
  refine ⟨rfl, rfl, rfl, by decide⟩

/-- C2 (amended): for every summary-flagged request the Retriever is never
invoked and the context string supplied to every generation call is the
empty initial string (not the degraded-context marker), with zero
retrieved passages. -/
theorem C2_summary_skips_retrieval (o : Oracles)
    (message context_type model provider : String) (temperature : Int)
    (ae af asi : Option String) (hist : List HistEntry)
    (hs : (prepare_initial_state message context_type model provider temperature
      ae af asi hist).is_summary = true) :
    (runTurnTr o (prepare_initial_state message context_type model provider temperature
      ae af asi hist)).trace.count "retrieve_context" = 0 ∧
    (runTurnTr o (prepare_initial_state message context_type model provider temperature
      ae af asi hist)).calls.all (fun c => c.context == "") = true ∧
    (runTurn o (prepare_initial_state message context_type model provider temperature
      ae af asi hist)).retrieved_docs = [] := by
  set s₀ := prepare_initial_state message context_type model provider temperature
    ae af asi hist with hs₀
  have hpre := preGen_summary o s₀ hs
  have hpre1 : (preGenerationState o s₀).1 = ["classify_intent", "build_context"] := by
    rw [hpre]
  have hpre2 : (preGenerationState o s₀).2 =
      build_context_node (classify_intent_node o.classifier s₀) := by
    rw [hpre]
  refine ⟨?_, ?_, ?_⟩
  · show ((preGenerationState o s₀).1 ++
      (runAttempts o.gen 3 (preGenerationState o s₀).2).trace).count "retrieve_context" = 0
    rw [hpre1, List.count_append]
    have h1 : (["classify_intent", "build_context"] : List String).count
      "retrieve_context" = 0 := rfl
    have h2 : (runAttempts o.gen 3 (preGenerationState o s₀).2).trace.count
        "retrieve_context" = 0 := by
      rw [List.count_eq_zero]
      intro hmem
      rcases runAttempts_trace_mem o.gen 3 _ _ hmem with h | h | h <;>
        exact absurd h (by decide)
    omega
  · show (runAttempts o.gen 3 (preGenerationState o s₀).2).calls.all
      (fun c => c.context == "") = true
    rw [List.all_eq_true]
    intro c hc
    obtain ⟨-, h2, -, -⟩ := runAttempts_calls_fields o.gen 3 _ c hc
    have hctx : (preGenerationState o s₀).2.context_text = "" := by
      rw [hpre2, build_context_text, classify_context_text]
      rfl
    rw [h2, hctx]
    rfl
  · show (runAttempts o.gen 3 (preGenerationState o s₀).2).final.retrieved_docs = []
    rw [runAttempts_final_retrieved_docs, hpre2, build_retrieved_docs,
      classify_retrieved_docs]
    rfl

/-- Witness for C2: the theorem applied to a concrete summary request. -/
theorem C2_summary_skips_retrieval_witness :
    (runTurnTr oFine sSummary).trace.count "retrieve_context" = 0 ∧
    (runTurnTr oFine sSummary).calls.all (fun c => c.context == "") = true ∧
    (runTurn oFine sSummary).retrieved_docs = [] :=
  C2_summary_skips_retrieval oFine "summarize what we have so far" "epic" "m" "ollama" 30
    (some "EPIC TEXT") none none [] (by decide)

/-- C4 counterexample: a turn whose classified intent is "draft" (via the
"create" heuristic) but whose message does not contain the substring
"draft" receives a history of 10 messages, not 12: the truncation is keyed
on the `is_draft` message flag, not on the classified intent. -/
theorem C4_counterexample :
    (preGenerationState oFine sCreate).2.intent = "draft" ∧
    sCreate.is_draft = false ∧
    sCreate.messages.length = 12 ∧
    (runTurnTr oFine sCreate).calls.map (fun c => c.chat_history.length) = [10, 10, 10] := by
  refine ⟨by decide, rfl, rfl, by decide⟩

/-- C4 (amended): every generation call of a turn receives zero prior
messages when the message is summary-flagged, the most recent 12 when the
message contains "draft" (the `is_draft` flag — not the classified
intent), and the most recent 10 otherwise. -/
theorem C4_history_truncation (o : Oracles)
    (message context_type model provider : String) (temperature : Int)
    (ae af asi : Option String) (hist : List HistEntry) :
    (runTurnTr o (prepare_initial_state message context_type model provider temperature
      ae af asi hist)).calls.all (fun c => c.chat_history ==
        (if strContains (strLower message) "summary"
            || strContains (strLower message) "summarize" then ([] : List Msg)
         else if strContains (strLower message) "draft" then
           lastMsgs (convert_history hist) 12
         else lastMsgs (convert_history hist) 10)) = true := by
  set s₀ := prepare_initial_state message context_type model provider temperature
    ae af asi hist with hs₀
  show (runAttempts o.gen 3 (preGenerationState o s₀).2).calls.all _ = true
  rw [List.all_eq_true]
  intro c hc
  obtain ⟨-, -, h3, -⟩ := runAttempts_calls_fields o.gen 3 _ c hc
  have hform : chat_history_of (preGenerationState o s₀).2 =
      (if s₀.is_summary then ([] : List Msg)
       else if s₀.is_draft then lastMsgs s₀.messages 12
       else lastMsgs s₀.messages 10) := by
    rw [chat_history_formula, preGen_is_summary, preGen_is_draft, preGen_messages]
  have hsum : s₀.is_summary = (strContains (strLower message) "summary"
      || strContains (strLower message) "summarize") := rfl
  have hdr : s₀.is_draft = strContains (strLower message) "draft" := rfl
  have hmsg : s₀.messages = convert_history hist := rfl
  rw [h3, hform, hsum, hdr, hmsg]
  exact beq_self_eq_true _

/-- C5 counterexample: on a summary-flagged state with artifact focus
"strategic-initiative" the Context Builder still prepends the fixed
keyword phrase, so the retrieval query is not exactly the raw user
message. -/
theorem C5_counterexample :
    sSummarySI.is_summary = true ∧
    (build_context_node (classify_intent_node none sSummarySI)).retrieval_query =
      "Strategic Initiative summarize the initiative" ∧
    ("Strategic Initiative summarize the initiative" : String) ≠
      "summarize the initiative" := by
  refine ⟨rfl, rfl, by decide⟩

/-- C5 (amended): for every summary-flagged state the Context Builder
omits all active-artifact text and uses the raw user message as the
query, except that for artifact focus "strategic-initiative" and
"pi-objective" the fixed retrieval keyword phrase is still prepended. -/
theorem C5_summary_query (s : DiscoveryState) (h : s.is_summary = true) :
    (build_context_node s).retrieval_query =
      (if s.context_type == "strategic-initiative" then
        "Strategic Initiative " ++ s.user_message
       else if s.context_type == "pi-objective" then
        "PI Objectives " ++ s.user_message
       else s.user_message) := by
  unfold build_context_node
  rw [if_pos h]
  simp

/-- Witness for C5: the theorem applied to a concrete summary state with
pi-objective focus. -/
theorem C5_summary_query_witness :
    (build_context_node sSummaryPI).retrieval_query =
      (if sSummaryPI.context_type == "strategic-initiative" then
        "Strategic Initiative " ++ sSummaryPI.user_message
       else if sSummaryPI.context_type == "pi-objective" then
        "PI Objectives " ++ sSummaryPI.user_message
       else sSummaryPI.user_message) :=
  C5_summary_query sSummaryPI (by decide)

theorem incomplete_notin_length (response : String) (is_draft : Bool) :
    "Response appears incomplete" ∉ length_issues response is_draft := by
  intro h
  unfold length_issues at h
  split at h
  · simp only [List.mem_singleton] at h
    exact absurd h (by decide)
  · split at h
    · simp only [List.mem_singleton] at h
      exact absurd h (by decide)
    · cases h

theorem incomplete_notin_template (response intent context_type : String) :
    "Response appears incomplete" ∉ template_issues response intent context_type := by
  intro h
  simp only [template_issues] at h
  split at h
  · split at h
    · simp only [List.mem_singleton] at h
      have h2 := congrArg String.data h
      rw [String.data_append] at h2
      simp at h2
    · cases h
  · cases h

/-- C6 counterexample: a "[To be filled]" placeholder occurring only
before the final 100 characters still produces the "response appears
incomplete" issue, because the placeholder test scans the whole response,
not its final 100 characters. -/
theorem C6_counterexample :
    strContains (lastChars respPlaceholderEarly 100) "..." = false ∧
    strContains (lastChars respPlaceholderEarly 100) "[To be filled]" = false ∧
    strContains respPlaceholderEarly "[To be filled]" = true ∧
    "Response appears incomplete" ∈
      validation_issues_of respPlaceholderEarly "question" "epic" false := by
  refine ⟨by decide, by decide, by decide, by decide⟩

/-- C6 (amended): the Validator produces the "response appears incomplete"
issue exactly when the final 100 characters contain an ellipsis or the
"[To be filled]" placeholder occurs anywhere in the response. -/
theorem C6_incomplete_condition (response intent context_type : String) (is_draft : Bool) :
    "Response appears incomplete" ∈
        validation_issues_of response intent context_type is_draft ↔
      (strContains (lastChars response 100) "..." = true ∨
       strContains response "[To be filled]" = true) := by
  unfold validation_issues_of
  simp only [List.mem_append]
  constructor
  · rintro ((h | h) | h)
    · exact absurd h (incomplete_notin_length response is_draft)
    · exact absurd h (incomplete_notin_template response intent context_type)
    · unfold truncation_issues at h
      split at h
      next hcond =>
        rw [Bool.or_eq_true] at hcond
        exact hcond
      next => cases h
  · intro hcond
    right
    unfold truncation_issues
    have hcond2 : (strContains (lastChars response 100) "..."
        || strContains response "[To be filled]") = true := by
      rw [Bool.or_eq_true]; exact hcond
    simp [hcond2]

/-- C8 counterexample: when no heuristic matches and the generator call
succeeds with a parseable JSON dict that names neither an intent nor a
confidence, the classifier falls back per-field to intent "question" with
confidence 0.7 — not the 0.5 the claim states for every answer that
cannot be parsed into an intent and confidence. -/
theorem C8_counterexample :
    heuristic_miss "hello there friend" = true ∧
    (classify_intent_node (some (none, none)) helloState).intent = "question" ∧
    (classify_intent_node (some (none, none)) helloState).confidence_score = 70 ∧
    (70 : Int) ≠ 50 := by
  refine ⟨by decide, rfl, rfl, by decide⟩

/-- C8 (amended): for a message matching none of the lexical heuristics,
a failed generator call or an answer that does not parse to a JSON dict
degrades to intent "question" with confidence 0.5; a parsed dict missing
the intent or confidence field degrades per-field to "question" and 0.7.
Classification always returns a state, never aborting the turn. -/
theorem C8_classifier_fallback (s : DiscoveryState)
    (h : heuristic_miss s.user_message = true) :
    ((classify_intent_node none s).intent = "question" ∧
     (classify_intent_node none s).confidence_score = 50) ∧
    (∀ i c, (classify_intent_node (some (i, c)) s).intent = i.getD "question" ∧
      (classify_intent_node (some (i, c)) s).confidence_score = c.getD 70) := by
  simp only [heuristic_miss, Bool.not_eq_true', Bool.or_eq_false_iff] at h
  obtain ⟨⟨⟨⟨⟨⟨⟨⟨⟨h1, h2⟩, h3⟩, h4⟩, h5⟩, h6⟩, h7⟩, h8⟩, h9⟩, h10⟩ := h
  constructor
  · constructor <;>
      simp [classify_intent_node, h1, h2, h3, h4, h5, h6, h7, h8, h9, h10]
  · intro i c
    constructor <;>
      simp [classify_intent_node, h1, h2, h3, h4, h5, h6, h7, h8, h9, h10]

/-- Witness for C8: the theorem applied to a concrete heuristic-missing
message. -/
theorem C8_classifier_fallback_witness :
    ((classify_intent_node none helloState).intent = "question" ∧
     (classify_intent_node none helloState).confidence_score = 50) ∧
    (∀ i c, (classify_intent_node (some (i, c)) helloState).intent = i.getD "question" ∧
      (classify_intent_node (some (i, c)) helloState).confidence_score = c.getD 70) :=
  C8_classifier_fallback helloState (by decide)

/-- C3 counterexample: a turn that ends at the retry ceiling with
confidence 0.9 terminates with the accepted disposition (terminal end, no
recorded error) while carrying a nonempty validation issue list. -/
theorem C3_counterexample :
    should_continue_after_validation (runTurn oShort sOutline) = .done ∧
    (runTurn oShort sOutline).error_message = none ∧
    (runTurn oShort sOutline).retry_count = 2 ∧
    (runTurn oShort sOutline).validation_issues = ["Response too short"] ∧
    (["Response too short"] : List String) ≠ [] := by
  refine ⟨rfl, rfl, rfl, rfl, by decide⟩

/-- C3 (amended): a turn that terminates with the accepted disposition
(terminal end, no recorded error) while its retry counter is still below
2 returns an empty validation issue list.  (At the retry ceiling an
accepted turn can carry a nonempty issue list when confidence ≥ 0.7.) -/
theorem C3_accepted_issue_list (o : Oracles)
    (message context_type model provider : String) (temperature : Int)
    (ae af asi : Option String) (hist : List HistEntry)
    (hroute : should_continue_after_validation (runTurn o (prepare_initial_state message
      context_type model provider temperature ae af asi hist)) = .done)
    (herr : (runTurn o (prepare_initial_state message context_type model provider
      temperature ae af asi hist)).error_message = none)
    (hlt : (runTurn o (prepare_initial_state message context_type model provider
      temperature ae af asi hist)).retry_count < 2) :
    (runTurn o (prepare_initial_state message context_type model provider temperature
      ae af asi hist)).validation_issues = [] := by
  set s₀ := prepare_initial_state message context_type model provider temperature
    ae af asi hist with hs₀
  obtain ⟨t, ht⟩ := runAttempts_final_shape o.gen 3 (preGenerationState o s₀).2
    (by rw [preGen_retry_count]; exact Nat.zero_le 2)
    (by rw [preGen_retry_count]; show 3 ≤ 0 + 3; omega)
  have hfin : runTurn o s₀ = validate_response_node t := ht
  rw [hfin] at hroute herr hlt ⊢
  rw [validate_retry_count] at hlt
  rw [validate_error_message] at herr
  by_cases hnr : (validate_response_node t).needs_retry = true
  · exfalso
    unfold should_continue_after_validation at hroute
    have he2 : optStrTruthy (validate_response_node t).error_message = false := by
      rw [validate_error_message, herr]
      rfl
    rw [if_neg (by rw [he2]; exact Bool.false_ne_true), if_pos hnr] at hroute
    exact absurd hroute (by decide)
  · have hnr2 : (validate_response_node t).needs_retry = false := by
      cases hh : (validate_response_node t).needs_retry
      · rfl
      · exact absurd hh hnr
    exact validate_no_retry_no_issues t hnr2 hlt

/-- Witness for C3: the theorem applied to a concrete accepted turn. -/
theorem C3_accepted_issue_list_witness :
    (runTurn oFine sOutline).validation_issues = [] :=
  C3_accepted_issue_list oFine "outline a feature" "feature" "m" "ollama" 30
    none none none [] (by decide) (by decide) (by decide)

theorem runAttempts_final_intent (gen : GenOracle) (fuel : Nat) (s : DiscoveryState) :
    (runAttempts gen fuel s).final.intent = s.intent := by
  induction fuel generalizing s with
  | zero => rfl
  | succ n ih =>
    simp only [runAttempts]
    split
    next =>
      rw [ih]
      exact generate_intent gen s
    next =>
      show (validate_response_node (generate_response_node gen s)).intent = s.intent
      exact generate_intent gen s

theorem runAttempts_final_context_type (gen : GenOracle) (fuel : Nat)
    (s : DiscoveryState) :
    (runAttempts gen fuel s).final.context_type = s.context_type := by
  induction fuel generalizing s with
  | zero => rfl
  | succ n ih =>
    simp only [runAttempts]
    split
    next =>
      rw [ih]
      exact generate_context_type gen s
    next =>
      show (validate_response_node (generate_response_node gen s)).context_type
        = s.context_type
      exact generate_context_type gen s

theorem runAttempts_final_is_draft (gen : GenOracle) (fuel : Nat) (s : DiscoveryState) :
    (runAttempts gen fuel s).final.is_draft = s.is_draft := by
  induction fuel generalizing s with
  | zero => rfl
  | succ n ih =>
    simp only [runAttempts]
    split
    next =>
      rw [ih]
      exact generate_is_draft gen s
    next =>
      show (validate_response_node (generate_response_node gen s)).is_draft = s.is_draft
      exact generate_is_draft gen s

/-- C10: a failed generation attempt leaves the generated-response field
unchanged; validation still runs over that stale text.  When every
attempt of a turn fails (with nonempty error text), the turn ends at the
terminal error disposition (end route with a truthy recorded error,
retry counter 2), the response is still the initial empty string, and the
accompanying issue list is the validation of that empty string — it
contains the too-short issue and describes the stale text, not the
failed attempt. -/
theorem C10_stale_validation :
    (∀ (gen : GenOracle) (s : DiscoveryState) (e : String),
      gen (gen_call_of s) = .error e →
      (generate_response_node gen s).generated_response = s.generated_response) ∧
    (∀ (o : Oracles) (f : GenCall → String),
      (∀ c, o.gen c = .error (f c)) → (∀ c, f c ≠ "") →
      ∀ message context_type model provider temperature ae af asi hist,
        (runTurn o (prepare_initial_state message context_type model provider temperature
          ae af asi hist)).generated_response = "" ∧
        (runTurn o (prepare_initial_state message context_type model provider temperature
          ae af asi hist)).retry_count = 2 ∧
        optStrTruthy (runTurn o (prepare_initial_state message context_type model provider
          temperature ae af asi hist)).error_message = true ∧
        should_continue_after_validation (runTurn o (prepare_initial_state message
          context_type model provider temperature ae af asi hist)) = .done ∧
        (runTurn o (prepare_initial_state message context_type model provider temperature
          ae af asi hist)).validation_issues =
          validation_issues_of ""
            (runTurn o (prepare_initial_state message context_type model provider
              temperature ae af asi hist)).intent
            (runTurn o (prepare_initial_state message context_type model provider
              temperature ae af asi hist)).context_type
            (runTurn o (prepare_initial_state message context_type model provider
              temperature ae af asi hist)).is_draft ∧
        "Response too short" ∈ (runTurn o (prepare_initial_state message context_type
          model provider temperature ae af asi hist)).validation_issues) := by
  refine ⟨fun gen s e h => generate_fail_keeps_response gen s e h, ?_⟩
  intro o f hgen hf message context_type model provider temperature ae af asi hist
  set s₀ := prepare_initial_state message context_type model provider temperature
    ae af asi hist with hs₀
  obtain ⟨a1, a2, a3, a4, a5⟩ := runAttempts_allfail o.gen f hgen hf 3
    (preGenerationState o s₀).2
    (by rw [preGen_retry_count]; exact Nat.zero_le 2)
    (by rw [preGen_retry_count]; show 3 ≤ 0 + 3; omega)
  have hresp : (preGenerationState o s₀).2.generated_response = "" := by
    rw [preGen_generated_response]
    rfl
  have hfinresp : (runTurn o s₀).generated_response = "" := by
    show (runAttempts o.gen 3 (preGenerationState o s₀).2).final.generated_response = ""
    rw [a1, hresp]
  have hint : (preGenerationState o s₀).2.intent = (runTurn o s₀).intent :=
    (runAttempts_final_intent o.gen 3 (preGenerationState o s₀).2).symm
  have hct : (preGenerationState o s₀).2.context_type = (runTurn o s₀).context_type :=
    (runAttempts_final_context_type o.gen 3 (preGenerationState o s₀).2).symm
  have hdr : (preGenerationState o s₀).2.is_draft = (runTurn o s₀).is_draft :=
    (runAttempts_final_is_draft o.gen 3 (preGenerationState o s₀).2).symm
  have hiss : (runTurn o s₀).validation_issues =
      validation_issues_of "" (runTurn o s₀).intent (runTurn o s₀).context_type
        (runTurn o s₀).is_draft := by
    show (runAttempts o.gen 3 (preGenerationState o s₀).2).final.validation_issues = _
    rw [a5, hresp, hint, hct, hdr]
  refine ⟨hfinresp, a2, a3, a4, hiss, ?_⟩
  rw [hiss]
  unfold validation_issues_of
  refine List.mem_append.mpr (Or.inl (List.mem_append.mpr (Or.inl ?_)))
  rw [show length_issues "" (runTurn o s₀).is_draft = ["Response too short"] from rfl]
  exact List.mem_singleton.mpr rfl

/-- Witness for C10: both parts applied at concrete inputs — a state whose
generation call fails, and a full turn with an always-failing generator. -/
theorem C10_stale_validation_witness :
    ((generate_response_node oFailAll.gen stateWithError).generated_response =
      stateWithError.generated_response) ∧
    ((runTurn oFailAll sOutline).generated_response = "" ∧
     (runTurn oFailAll sOutline).retry_count = 2 ∧
     optStrTruthy (runTurn oFailAll sOutline).error_message = true ∧
     should_continue_after_validation (runTurn oFailAll sOutline) = .done ∧
     (runTurn oFailAll sOutline).validation_issues =
       validation_issues_of "" (runTurn oFailAll sOutline).intent
         (runTurn oFailAll sOutline).context_type
         (runTurn oFailAll sOutline).is_draft ∧
     "Response too short" ∈ (runTurn oFailAll sOutline).validation_issues) :=
  ⟨C10_stale_validation.1 oFailAll.gen stateWithError "boom" rfl,
   C10_stale_validation.2 oFailAll (fun _ => "boom") (fun _ => rfl)
     (fun _ => (by decide : ("boom" : String) ≠ ""))
     "outline a feature" "feature" "m" "ollama" 30 none none none []⟩
